import Mathlib

/-!
Verification of the sqlite3-ruby VFS layer and the Database C extension.

The repository ships two source files: the VFS test suite
(test/test_vfs.rb) and the Database extension (ext/sqlite3/database.c).
The VFS implementation itself (SQLite3::VFS, its lock state machine,
its byte-store device and the backend registry) is exercised by the
tests but its code is not in the tree, so those components are modelled
from the specification; the Database extension functions are embedded
directly from database.c.
-/

namespace VFS

/-- Modelled from the spec: the five lock states of the host engine's
cooperative-locking protocol (spec section 4.2), mirroring the Ruby
constants `VFS::LOCK_NONE` .. `VFS::LOCK_EXCLUSIVE`. The VFS lock
implementation is not under src/, only its tests are. -/
inductive LockState where
  | NONE
  | SHARED
  | RESERVED
  | PENDING
  | EXCLUSIVE
  deriving DecidableEq, Repr

/-- Modelled from the spec: the strength order of lock states, given by
the legal upward path NONE → SHARED → RESERVED → PENDING → EXCLUSIVE. -/
def LockState.rank : LockState → Nat
  | .NONE => 0
  | .SHARED => 1
  | .RESERVED => 2
  | .PENDING => 3
  | .EXCLUSIVE => 4

/-- Modelled from the spec: `blocks target other` is true when another
handle holding `other` forbids acquiring `target` (the transition table
of spec section 4.2). -/
def blocks : LockState → LockState → Bool
  | .SHARED, o => o == .PENDING || o == .EXCLUSIVE
  | .RESERVED, o => o == .RESERVED || o == .PENDING || o == .EXCLUSIVE
  | .PENDING, o => o == .PENDING || o == .EXCLUSIVE
  | .EXCLUSIVE, o => o != .NONE
  | .NONE, _ => false

/-- Modelled from the spec: the shared per-file-identity coordination
point, holding the lock state of every handle (by handle id) open on
the same logical file. -/
structure LockSys where
  handles : List (Nat × LockState)
  deriving DecidableEq, Repr

/-- Lock state recorded for handle `h` in an association list (NONE
when the handle is not recorded). -/
def lookupState : List (Nat × LockState) → Nat → LockState
  | [], _ => LockState.NONE
  | p :: t, h => if p.1 = h then p.2 else lookupState t h

/-- Record in an association list that handle `h` now holds state `s`,
inserting the handle when it is not yet recorded. -/
def setStateList : List (Nat × LockState) → Nat → LockState → List (Nat × LockState)
  | [], h, s => [(h, s)]
  | p :: t, h, s => if p.1 = h then (p.1, s) :: t else p :: setStateList t h s

/-- Lock state currently held by handle `h`. -/
def stateOf (sys : LockSys) (h : Nat) : LockState :=
  lookupState sys.handles h

/-- Lock states of all handles other than `h` on the same file identity. -/
def othersOf (sys : LockSys) (h : Nat) : List LockState :=
  (sys.handles.filter (fun p => p.1 != h)).map (fun p => p.2)

/-- Record that handle `h` now holds state `s`. -/
def setState (sys : LockSys) (h : Nat) (s : LockState) : LockSys :=
  ⟨setStateList sys.handles h s⟩

/-- Failure signals of the VFS layer (spec section 7). -/
inductive VfsErr where
  | busy
  deriving DecidableEq, Repr

/-- Modelled from the spec: a lock/unlock transition request by handle
`h` for state `target`. A request for a state weaker than or equal to
the current state is a release and always succeeds; a request for a
stronger state succeeds iff no other handle's state blocks the target
per the transition table, and otherwise reports busy without retrying
(spec sections 4.2 and 5). -/
def lockReq (sys : LockSys) (h : Nat) (target : LockState) : Except VfsErr LockSys :=
  if target.rank ≤ (stateOf sys h).rank then
    Except.ok (setState sys h target)
  else if (othersOf sys h).any (blocks target) then
    Except.error VfsErr.busy
  else
    Except.ok (setState sys h target)

/-- Modelled from the spec: the observable effect of a lock request on
the shared state — on failure the caller keeps the unchanged state. -/
def lockStep (sys : LockSys) (h : Nat) (target : LockState) : Bool × LockSys :=
  match lockReq sys h target with
  | Except.ok s2 => (true, s2)
  | Except.error _ => (false, sys)

/-- Modelled from the spec: `check_reserved_lock()` (Ruby
`reserved_lock?`) is true iff some handle on the same file identity
currently holds RESERVED or a stronger state (spec section 4.2). -/
def reservedLock (sys : LockSys) : Bool :=
  sys.handles.any (fun p => LockState.RESERVED.rank ≤ p.2.rank)

/-- Modelled from the spec: the abstract byte store backing a File
Handle (spec section 3, `SQLite3::VFS::StringIO` in the tests; the
implementation is not under src/). -/
structure Device where
  bytes : List Nat
  deriving DecidableEq, Repr

/-- Current device size (spec section 4.3, `size()`). -/
def Device.size (d : Device) : Nat := d.bytes.length

/-- Modelled from the spec: `read(offset, length)` returns the bytes in
the requested range; a range extending past current size yields a short
read (spec section 4.3). -/
def Device.read (d : Device) (off len : Nat) : List Nat :=
  (d.bytes.drop off).take len

/-- Modelled from the spec: `write(offset, bytes)` overlays `data` at
`off`, extending the device and zero-filling any gap between the old
size and `off` when the write reaches past end-of-file (spec section
4.3). -/
def Device.write (d : Device) (off : Nat) (data : List Nat) : Device :=
  let padded := d.bytes ++ List.replicate (off + data.length - d.bytes.length) 0
  ⟨padded.take off ++ data ++ padded.drop (off + data.length)⟩

/-- Modelled from the spec: `truncate(new_size)` sets size to
`new_size`, discarding trailing bytes when shrinking and zero-filling
when growing (spec section 4.3). -/
def Device.truncate (d : Device) (n : Nat) : Device :=
  if n ≤ d.bytes.length then ⟨d.bytes.take n⟩
  else ⟨d.bytes ++ List.replicate (n - d.bytes.length) 0⟩

/-- Modelled from the spec: one open file — its device plus the shared
lock coordination state of its file identity (spec section 3). -/
structure VFSFile where
  dev : Device
  locks : LockSys
  deriving DecidableEq, Repr

/-- Modelled from the spec: `check_reserved_lock()` as a state
transformer — a read-only, non-blocking query that returns its answer
and leaves every lock state and the device contents untouched (spec
section 4.2). -/
def checkReservedLockOp (f : VFSFile) : Bool × VFSFile :=
  (reservedLock f.locks, f)

/-- Registry failure signals (spec sections 4.1 and 7). -/
inductive RegErr where
  | duplicateName
  | notFound
  deriving DecidableEq, Repr

/-- Modelled from the spec: the process-wide VFS registry mapping a
backend name to a factory (spec section 4.1; registration is exercised
by `SQLite3.vfs_register` in the tests, the implementation is not under
src/). -/
structure Registry (F : Type) where
  entries : List (String × F)

/-- Modelled from the spec: `register(name, factory)` fails with
DuplicateNameError if the name is already registered, otherwise stores
the descriptor (spec section 4.1). -/
def Registry.register {F : Type} (r : Registry F) (nm : String) (f : F) :
    Except RegErr (Registry F) :=
  if r.entries.any (fun p => p.1 == nm) then Except.error RegErr.duplicateName
  else Except.ok ⟨(nm, f) :: r.entries⟩

/-- Modelled from the spec: `lookup(name)` fails with NotFoundError if
the name is absent (spec section 4.1). -/
def Registry.lookup {F : Type} (r : Registry F) (nm : String) : Except RegErr F :=
  match r.entries.find? (fun p => p.1 == nm) with
  | Option.none => Except.error RegErr.notFound
  | Option.some p => Except.ok p.2

/-- Modelled from the spec: opening a database with a backend name
looks the name up in the registry and dispatches to the backend's
factory exactly once per open; the second component records the trace
of factory invocations made (spec sections 4.4 and 8). -/
def openDatabase {F : Type} (r : Registry F) (nm : String) :
    Except RegErr (F × List F) :=
  match r.lookup nm with
  | Except.error e => Except.error e
  | Except.ok f => Except.ok (f, [f])

end VFS

namespace DBC

/-- Ruby values as far as the embedded C functions inspect them: nil,
false, true and opaque other objects (blocks, procs, strings). -/
inductive RValue where
  | vnil
  | vfalse
  | vtrue
  | obj (n : Nat)
  deriving DecidableEq, Repr

/-- Ruby exceptions raised by the embedded C functions. -/
inductive RubyErr where
  | sqlite3Exception (msg : String)
  | sqliteFailure (status : Int)
  deriving DecidableEq, Repr

/-- The exception REQUIRE_OPEN_DB raises (database.c line 3). -/
def closedDbErr : RubyErr :=
  RubyErr.sqlite3Exception "cannot use a closed database"

/-- State of one SQLite3::Database Ruby object: the sqlite3RubyPtr
context (`db` is `ctx->db`, NULL when closed) together with the
instance variables set by database.c. `agregator` keeps the source's
spelling. -/
structure DbState (γ : Type) where
  db : Option γ
  tracefunc : RValue
  authorizer : RValue
  busyHandlerVar : RValue
  encodingVar : RValue
  agregator : RValue
  deriving DecidableEq, Repr

/-- The sqlite3 C API surface invoked by database.c, abstracted over
the engine's connection state `γ`. Functions that return a status in C
return it in the second component. -/
structure Engine (γ : Type) where
  totalChanges : γ → Int
  lastInsertRowid : γ → Int
  errmsgFn : γ → String
  errcodeFn : γ → Int
  changesFn : γ → Int
  interruptFn : γ → γ
  traceFn : γ → Bool → γ × Int
  createFunctionStatus : γ → String → Int → γ × Int
  setAuthorizerStatus : γ → Bool → γ × Int
  busyTimeoutStatus : γ → Int → γ × Int
  backupRun : γ → γ → γ
  encodingQuery : γ → RValue

/-- The CHECK macro: raise a SQLite failure when the status is not
SQLITE_OK (0). -/
def check (status : Int) : Except RubyErr Unit :=
  if status = 0 then Except.ok () else Except.error (RubyErr.sqliteFailure status)

/-- Embeds total_changes (database.c lines 133-140): REQUIRE_OPEN_DB,
then sqlite3_total_changes. -/
def total_changes {γ : Type} (eng : Engine γ) (s : DbState γ) :
    Except RubyErr (Int × DbState γ) :=
  match s.db with
  | Option.none => Except.error closedDbErr
  | Option.some db => Except.ok (eng.totalChanges db, s)

/-- Embeds trace (database.c lines 157-174): REQUIRE_OPEN_DB, store the
block in @tracefunc, install or clear the engine trace callback. -/
def trace {γ : Type} (eng : Engine γ) (s : DbState γ) (block : RValue) :
    Except RubyErr (DbState γ) :=
  match s.db with
  | Option.none => Except.error closedDbErr
  | Option.some db =>
      let r := eng.traceFn db (block ≠ RValue.vnil)
      Except.ok { s with db := Option.some r.1, tracefunc := block }

/-- Embeds rb_sqlite3_busy_handler (database.c lines 176-185): invoke
the stored handler's `call` with the retry count; return 0 exactly when
the result is Ruby false, else 1. -/
def rb_sqlite3_busy_handler (handlerCall : Int → RValue) (count : Int) : Int :=
  if handlerCall count = RValue.vfalse then 0 else 1

/-- Embeds busy_handler (database.c lines 201-221): REQUIRE_OPEN_DB,
store the block in @busy_handler, register the callback (the source
registers it through sqlite3_trace) and CHECK the status. -/
def busy_handler {γ : Type} (eng : Engine γ) (s : DbState γ) (block : RValue) :
    Except RubyErr (DbState γ) :=
  match s.db with
  | Option.none => Except.error closedDbErr
  | Option.some db =>
      let r := eng.traceFn db (block ≠ RValue.vnil)
      match check r.2 with
      | Except.error e => Except.error e
      | Except.ok _ =>
          Except.ok { s with db := Option.some r.1, busyHandlerVar := block }

/-- Embeds last_insert_row_id (database.c lines 228-235). -/
def last_insert_row_id {γ : Type} (eng : Engine γ) (s : DbState γ) :
    Except RubyErr (Int × DbState γ) :=
  match s.db with
  | Option.none => Except.error closedDbErr
  | Option.some db => Except.ok (eng.lastInsertRowid db, s)

/-- Embeds define_function (database.c lines 312-334): REQUIRE_OPEN_DB,
sqlite3_create_function with the block's arity, CHECK the status. -/
def define_function {γ : Type} (eng : Engine γ) (s : DbState γ)
    (nm : String) (blockArity : Int) : Except RubyErr (DbState γ) :=
  match s.db with
  | Option.none => Except.error closedDbErr
  | Option.some db =>
      let r := eng.createFunctionStatus db nm blockArity
      match check r.2 with
      | Except.error e => Except.error e
      | Except.ok _ => Except.ok { s with db := Option.some r.1 }

/-- Embeds define_aggregator (database.c lines 370-394): REQUIRE_OPEN_DB,
sqlite3_create_function with the aggregator's step arity, store the
aggregator in @agregator, CHECK the status. -/
def define_aggregator {γ : Type} (eng : Engine γ) (s : DbState γ)
    (nm : String) (aggregator : RValue) (stepArity : Int) :
    Except RubyErr (DbState γ) :=
  match s.db with
  | Option.none => Except.error closedDbErr
  | Option.some db =>
      let r := eng.createFunctionStatus db nm stepArity
      match check r.2 with
      | Except.error e => Except.error e
      | Except.ok _ =>
          Except.ok { s with db := Option.some r.1, agregator := aggregator }

/-- Embeds interrupt (database.c lines 400-409). -/
def interrupt {γ : Type} (eng : Engine γ) (s : DbState γ) :
    Except RubyErr (DbState γ) :=
  match s.db with
  | Option.none => Except.error closedDbErr
  | Option.some db => Except.ok { s with db := Option.some (eng.interruptFn db) }

/-- Embeds errmsg (database.c lines 416-423). -/
def errmsg {γ : Type} (eng : Engine γ) (s : DbState γ) :
    Except RubyErr (String × DbState γ) :=
  match s.db with
  | Option.none => Except.error closedDbErr
  | Option.some db => Except.ok (eng.errmsgFn db, s)

/-- Embeds errcode (database.c lines 430-437). -/
def errcode {γ : Type} (eng : Engine γ) (s : DbState γ) :
    Except RubyErr (Int × DbState γ) :=
  match s.db with
  | Option.none => Except.error closedDbErr
  | Option.some db => Except.ok (eng.errcodeFn db, s)

/-- Embeds changes (database.c lines 458-465). -/
def changes {γ : Type} (eng : Engine γ) (s : DbState γ) :
    Except RubyErr (Int × DbState γ) :=
  match s.db with
  | Option.none => Except.error closedDbErr
  | Option.some db => Except.ok (eng.changesFn db, s)

/-- Embeds set_authorizer, Ruby `authorizer=` (database.c lines
501-516): REQUIRE_OPEN_DB, sqlite3_set_authorizer, CHECK, store the
authorizer in @authorizer. -/
def set_authorizer {γ : Type} (eng : Engine γ) (s : DbState γ)
    (authorizer : RValue) : Except RubyErr (DbState γ) :=
  match s.db with
  | Option.none => Except.error closedDbErr
  | Option.some db =>
      let r := eng.setAuthorizerStatus db (authorizer ≠ RValue.vnil)
      match check r.2 with
      | Except.error e => Except.error e
      | Except.ok _ =>
          Except.ok { s with db := Option.some r.1, authorizer := authorizer }

/-- Embeds set_busy_timeout, Ruby `busy_timeout=` (database.c lines
528-537): REQUIRE_OPEN_DB, sqlite3_busy_timeout, CHECK. -/
def set_busy_timeout {γ : Type} (eng : Engine γ) (s : DbState γ) (ms : Int) :
    Except RubyErr (DbState γ) :=
  match s.db with
  | Option.none => Except.error closedDbErr
  | Option.some db =>
      let r := eng.busyTimeoutStatus db ms
      match check r.2 with
      | Except.error e => Except.error e
      | Except.ok _ => Except.ok { s with db := Option.some r.1 }

/-- Embeds copy_to (database.c lines 543-563): REQUIRE_OPEN_DB on self
then on target, run the backup, CHECK the target's error code. -/
def copy_to {γ : Type} (eng : Engine γ) (s target : DbState γ) :
    Except RubyErr (DbState γ × DbState γ) :=
  match s.db with
  | Option.none => Except.error closedDbErr
  | Option.some db =>
      match target.db with
      | Option.none => Except.error closedDbErr
      | Option.some tdb =>
          let t2 := eng.backupRun tdb db
          match check (eng.errcodeFn t2) with
          | Except.error e => Except.error e
          | Except.ok _ => Except.ok (s, { target with db := Option.some t2 })

/-- Embeds db_encoding, Ruby `encoding` (database.c lines 581-594):
REQUIRE_OPEN_DB, query PRAGMA encoding into @encoding when it is still
nil, return @encoding. -/
def db_encoding {γ : Type} (eng : Engine γ) (s : DbState γ) :
    Except RubyErr (RValue × DbState γ) :=
  match s.db with
  | Option.none => Except.error closedDbErr
  | Option.some db =>
      let enc := if s.encodingVar = RValue.vnil then eng.encodingQuery db
                 else s.encodingVar
      Except.ok (enc, { s with encodingVar := enc })

/-- A trivial engine over the unit connection type, used to evaluate
the embedded functions on concrete states. -/
def unitEngine : Engine Unit where
  totalChanges := fun _ => 0
  lastInsertRowid := fun _ => 0
  errmsgFn := fun _ => ""
  errcodeFn := fun _ => 0
  changesFn := fun _ => 0
  interruptFn := fun u => u
  traceFn := fun u _ => (u, 0)
  createFunctionStatus := fun u _ _ => (u, 0)
  setAuthorizerStatus := fun u _ => (u, 0)
  busyTimeoutStatus := fun u _ => (u, 0)
  backupRun := fun t _ => t
  encodingQuery := fun _ => RValue.vnil

/-- A closed database object: ctx->db is NULL, all instance variables
nil. -/
def closedState : DbState Unit :=
  ⟨Option.none, RValue.vnil, RValue.vnil, RValue.vnil, RValue.vnil, RValue.vnil⟩

end DBC

namespace VFS

theorem blocks_iff_table (t s : LockState) (ht : t ≠ LockState.NONE) :
    blocks t s = true ↔
      ((t = LockState.SHARED ∧ (s = LockState.PENDING ∨ s = LockState.EXCLUSIVE)) ∨
       (t = LockState.RESERVED ∧
         (s = LockState.RESERVED ∨ s = LockState.PENDING ∨ s = LockState.EXCLUSIVE)) ∨
       (t = LockState.PENDING ∧ (s = LockState.PENDING ∨ s = LockState.EXCLUSIVE)) ∨
       (t = LockState.EXCLUSIVE ∧ s ≠ LockState.NONE)) := by
  revert ht
  cases t <;> cases s <;> decide

theorem rank_pos_ne_none (t : LockState) (h : 0 < t.rank) : t ≠ LockState.NONE := by
  revert h
  cases t <;> decide

theorem lookupState_set_self (l : List (Nat × LockState)) (h : Nat) (s : LockState) :
    lookupState (setStateList l h s) h = s := by
  induction l with
  | nil => simp [setStateList, lookupState]
  | cons p t ih =>
      by_cases hp : p.1 = h
      · simp [setStateList, lookupState, hp]
      · simp [setStateList, lookupState, hp, ih]

theorem lookupState_set_other (l : List (Nat × LockState)) (h g : Nat) (s : LockState)
    (hne : g ≠ h) : lookupState (setStateList l h s) g = lookupState l g := by
  induction l with
  | nil =>
      have hgh : ¬ h = g := fun hc => hne hc.symm
      simp [setStateList, lookupState, hgh]
  | cons p t ih =>
      have hhg : ¬ h = g := fun hc => hne hc.symm
      by_cases hp : p.1 = h
      · have hpg : ¬ p.1 = g := by
          rw [hp]
          exact hhg
        simp [setStateList, lookupState, hp, hpg, hhg]
      · by_cases hpg : p.1 = g
        · simp [setStateList, lookupState, hp, hpg, hne]
        · simp [setStateList, lookupState, hp, hpg, ih]

theorem stateOf_setState_self (sys : LockSys) (h : Nat) (s : LockState) :
    stateOf (setState sys h s) h = s :=
  lookupState_set_self sys.handles h s

theorem stateOf_setState_other (sys : LockSys) (h g : Nat) (s : LockState)
    (hne : g ≠ h) : stateOf (setState sys h s) g = stateOf sys g :=
  lookupState_set_other sys.handles h g s hne

/-- C1: for every pair of handles on the same file identity, a request
for a stronger lock state fails exactly according to the transition
table — SHARED fails iff another handle holds PENDING or EXCLUSIVE;
RESERVED iff another holds RESERVED, PENDING, or EXCLUSIVE; PENDING iff
another holds PENDING or EXCLUSIVE; EXCLUSIVE iff another holds any
state other than NONE. -/
theorem lock_transition_table (sys : LockSys) (h : Nat) (target : LockState)
    (hup : (stateOf sys h).rank < target.rank) :
    lockReq sys h target = Except.error VfsErr.busy ↔
      ∃ s ∈ othersOf sys h,
        ((target = LockState.SHARED ∧ (s = LockState.PENDING ∨ s = LockState.EXCLUSIVE)) ∨
         (target = LockState.RESERVED ∧
           (s = LockState.RESERVED ∨ s = LockState.PENDING ∨ s = LockState.EXCLUSIVE)) ∨
         (target = LockState.PENDING ∧ (s = LockState.PENDING ∨ s = LockState.EXCLUSIVE)) ∨
         (target = LockState.EXCLUSIVE ∧ s ≠ LockState.NONE)) := by
  have htne : target ≠ LockState.NONE :=
    rank_pos_ne_none target (Nat.lt_of_le_of_lt (Nat.zero_le _) hup)
  unfold lockReq
  rw [if_neg (Nat.not_le.mpr hup)]
  by_cases hany : (othersOf sys h).any (blocks target) = true
  · rw [if_pos hany]
    constructor
    · intro _
      obtain ⟨s, hs, hb⟩ := List.any_eq_true.mp hany
      exact ⟨s, hs, (blocks_iff_table target s htne).mp hb⟩
    · intro _
      rfl
  · rw [if_neg hany]
    constructor
    · intro hcontra
      exact Except.noConfusion hcontra
    · rintro ⟨s, hs, hd⟩
      exact absurd
        (List.any_eq_true.mpr ⟨s, hs, (blocks_iff_table target s htne).mpr hd⟩) hany

/-- C1 witness: with another handle holding EXCLUSIVE, a request for
SHARED is refused as busy. -/
theorem lock_transition_table_witness :
    lockReq ⟨[(0, LockState.EXCLUSIVE), (1, LockState.NONE)]⟩ 1 LockState.SHARED
      = Except.error VfsErr.busy :=
  (lock_transition_table ⟨[(0, LockState.EXCLUSIVE), (1, LockState.NONE)]⟩ 1
      LockState.SHARED (by decide)).mpr
    ⟨LockState.EXCLUSIVE, by decide, by decide⟩

/-- C2: the reserved-lock query answers true exactly when some handle
on the file identity holds RESERVED, PENDING, or EXCLUSIVE (and hence
false when every state is NONE or SHARED). -/
theorem reserved_lock_iff (sys : LockSys) :
    reservedLock sys = true ↔
      ∃ p ∈ sys.handles,
        p.2 = LockState.RESERVED ∨ p.2 = LockState.PENDING ∨
          p.2 = LockState.EXCLUSIVE := by
  have key : ∀ s : LockState,
      LockState.RESERVED.rank ≤ s.rank ↔
        (s = LockState.RESERVED ∨ s = LockState.PENDING ∨ s = LockState.EXCLUSIVE) := by
    intro s
    cases s <;> decide
  unfold reservedLock
  rw [List.any_eq_true]
  constructor
  · rintro ⟨p, hp, hr⟩
    exact ⟨p, hp, (key p.2).mp (of_decide_eq_true hr)⟩
  · rintro ⟨p, hp, hr⟩
    exact ⟨p, hp, decide_eq_true ((key p.2).mpr hr)⟩

/-- C3: the reserved-lock query mutates nothing — the whole file state
(every handle's lock state and the device contents) after the call is
the state before it, and its answer is the pure reservedLock value. -/
theorem check_reserved_lock_pure (f : VFSFile) :
    (checkReservedLockOp f).2 = f ∧ (checkReservedLockOp f).1 = reservedLock f.locks :=
  ⟨rfl, rfl⟩

/-- C4: a transition request for a state weaker than or equal to the
current state is a release and always succeeds, leaving the handle at
the requested state and every other handle untouched; in particular
unlock(NONE) on an already-NONE handle is a no-op success. -/
theorem release_always_succeeds (sys : LockSys) (h : Nat) (target : LockState)
    (hle : target.rank ≤ (stateOf sys h).rank) :
    ∃ s2, lockReq sys h target = Except.ok s2 ∧ stateOf s2 h = target ∧
      ∀ g, g ≠ h → stateOf s2 g = stateOf sys g := by
  refine ⟨setState sys h target, ?_, stateOf_setState_self sys h target,
    fun g hg => stateOf_setState_other sys h g target hg⟩
  unfold lockReq
  rw [if_pos hle]

/-- C4 witness: unlock(NONE) on a handle already at NONE succeeds and
leaves the state NONE. -/
theorem release_always_succeeds_witness :
    ∃ s2, lockReq ⟨[(5, LockState.NONE)]⟩ 5 LockState.NONE = Except.ok s2 ∧
      stateOf s2 5 = LockState.NONE ∧
      ∀ g, g ≠ 5 → stateOf s2 g = stateOf ⟨[(5, LockState.NONE)]⟩ g :=
  release_always_succeeds ⟨[(5, LockState.NONE)]⟩ 5 LockState.NONE (by decide)

/-- C8: a currently-unsatisfiable upward transition reports busy to the
caller immediately: the request returns the BusyError signal and the
shared lock state is unchanged by the failed request. -/
theorem busy_on_contention (sys : LockSys) (h : Nat) (target : LockState)
    (hup : (stateOf sys h).rank < target.rank)
    (hblk : (othersOf sys h).any (blocks target) = true) :
    lockReq sys h target = Except.error VfsErr.busy ∧
      lockStep sys h target = (false, sys) := by
  have he : lockReq sys h target = Except.error VfsErr.busy := by
    unfold lockReq
    rw [if_neg (Nat.not_le.mpr hup), if_pos hblk]
  refine ⟨he, ?_⟩
  unfold lockStep
  rw [he]

/-- C8 witness: a SHARED holder requesting RESERVED while another
handle holds RESERVED gets busy and the state is unchanged. -/
theorem busy_on_contention_witness :
    lockReq ⟨[(0, LockState.RESERVED), (1, LockState.SHARED)]⟩ 1 LockState.RESERVED
        = Except.error VfsErr.busy ∧
      lockStep ⟨[(0, LockState.RESERVED), (1, LockState.SHARED)]⟩ 1 LockState.RESERVED
        = (false, ⟨[(0, LockState.RESERVED), (1, LockState.SHARED)]⟩) :=
  busy_on_contention ⟨[(0, LockState.RESERVED), (1, LockState.SHARED)]⟩ 1
    LockState.RESERVED (by decide) (by decide)

/-- C5: write then read round-trips — reading back the written range
returns exactly the written bytes for any offset, including offsets
beyond the prior end-of-file, and the gap between the old size and the
offset reads back as zero bytes. -/
theorem write_read_round_trip (d : Device) (off : Nat) (data : List Nat) :
    (d.write off data).read off data.length = data ∧
    (d.bytes.length ≤ off →
      (d.write off data).read d.bytes.length (off - d.bytes.length) =
        List.replicate (off - d.bytes.length) 0) := by
  have hA : ((d.bytes ++ List.replicate (off + data.length - d.bytes.length) 0).take
      off).length = off := by
    rw [List.length_take, List.length_append, List.length_replicate]
    omega
  have hw : (d.write off data).bytes =
      (d.bytes ++ List.replicate (off + data.length - d.bytes.length) 0).take off
        ++ data
        ++ (d.bytes ++ List.replicate (off + data.length - d.bytes.length) 0).drop
             (off + data.length) := rfl
  constructor
  · show ((d.write off data).bytes.drop off).take data.length = data
    rw [hw, List.append_assoc, List.drop_left' hA, List.take_left' rfl]
  · intro hb
    show ((d.write off data).bytes.drop d.bytes.length).take (off - d.bytes.length)
        = List.replicate (off - d.bytes.length) 0
    have hmin : min (off - d.bytes.length) (off + data.length - d.bytes.length)
        = off - d.bytes.length := by omega
    have hAeq : (d.bytes ++ List.replicate (off + data.length - d.bytes.length) 0).take off
        = d.bytes ++ List.replicate (off - d.bytes.length) 0 := by
      rw [List.take_append_eq_append_take, List.take_of_length_le hb, List.take_replicate,
        hmin]
    rw [hw, hAeq, List.append_assoc, List.append_assoc, List.drop_left' rfl,
      List.take_left' (by rw [List.length_replicate])]

/-- C5 witness: on a one-byte device, writing one byte at offset 4 and
reading it back returns the byte, and the three gap bytes read back as
zeros. -/
theorem write_read_round_trip_witness :
    Device.read (Device.write ⟨[1]⟩ 4 [7]) 4 1 = [7] ∧
      Device.read (Device.write ⟨[1]⟩ 4 [7]) 1 3 = [0, 0, 0] := by
  have h := write_read_round_trip ⟨[1]⟩ 4 [7]
  exact ⟨h.1, by simpa using h.2 (by decide)⟩

/-- C6: after truncate(n) the size is exactly n; when shrinking the
trailing bytes are discarded (the content is the n-byte prefix); and a
subsequent read at or beyond offset n is a short (empty) read. -/
theorem truncate_spec (d : Device) (n : Nat) :
    (d.truncate n).size = n ∧
    (n ≤ d.size → (d.truncate n).bytes = d.bytes.take n) ∧
    ∀ off len, n ≤ off → (d.truncate n).read off len = [] := by
  have hlen : (d.truncate n).bytes.length = n := by
    unfold Device.truncate
    by_cases hn : n ≤ d.bytes.length
    · rw [if_pos hn]
      show (d.bytes.take n).length = n
      rw [List.length_take]
      omega
    · rw [if_neg hn]
      show (d.bytes ++ List.replicate (n - d.bytes.length) 0).length = n
      rw [List.length_append, List.length_replicate]
      omega
  refine ⟨hlen, ?_, ?_⟩
  · intro hle
    have hle2 : n ≤ d.bytes.length := hle
    unfold Device.truncate
    rw [if_pos hle2]
  · intro off len hoff
    show ((d.truncate n).bytes.drop off).take len = []
    rw [List.drop_eq_nil_of_le (by rw [hlen]; exact hoff), List.take_nil]

/-- C6 witness: truncating a three-byte device to 2 gives size 2, keeps
the two-byte prefix, and reading at offset 2 returns nothing. -/
theorem truncate_spec_witness :
    Device.size (Device.truncate ⟨[1, 2, 3]⟩ 2) = 2 ∧
      (Device.truncate ⟨[1, 2, 3]⟩ 2).bytes = [1, 2] ∧
      Device.read (Device.truncate ⟨[1, 2, 3]⟩ 2) 2 5 = [] := by
  have h := truncate_spec ⟨[1, 2, 3]⟩ 2
  exact ⟨h.1, by simpa using h.2.1 (by decide), h.2.2 2 5 (by decide)⟩

/-- C7: register fails with DuplicateNameError exactly when the name is
already registered and otherwise stores the descriptor; lookup fails
with NotFoundError exactly when the name is absent and otherwise
returns the registered factory; opening a database with a registered
backend name dispatches to that backend's factory exactly once per
open. -/
theorem registry_contract {F : Type} (r : Registry F) (nm : String) (f : F) :
    (Registry.register r nm f = Except.error RegErr.duplicateName ↔
        ∃ p ∈ r.entries, p.1 = nm) ∧
    ((¬ ∃ p ∈ r.entries, p.1 = nm) →
        Registry.register r nm f = Except.ok ⟨(nm, f) :: r.entries⟩) ∧
    (Registry.lookup r nm = Except.error RegErr.notFound ↔
        ¬ ∃ p ∈ r.entries, p.1 = nm) ∧
    (∀ g, Registry.lookup r nm = Except.ok g →
        openDatabase r nm = Except.ok (g, [g])) := by
  have hany : r.entries.any (fun p => p.1 == nm) = true ↔ ∃ p ∈ r.entries, p.1 = nm := by
    rw [List.any_eq_true]
    constructor
    · rintro ⟨p, hp, h2⟩
      exact ⟨p, hp, by simpa using h2⟩
    · rintro ⟨p, hp, h2⟩
      exact ⟨p, hp, by simpa using h2⟩
  refine ⟨?_, ?_, ?_, ?_⟩
  · unfold Registry.register
    by_cases h : r.entries.any (fun p => p.1 == nm) = true
    · rw [if_pos h]
      exact iff_of_true rfl (hany.mp h)
    · rw [if_neg h]
      exact iff_of_false (fun hc => Except.noConfusion hc) (fun hex => h (hany.mpr hex))
  · intro hnex
    unfold Registry.register
    rw [if_neg (fun h => hnex (hany.mp h))]
  · unfold Registry.lookup
    cases hfind : r.entries.find? (fun p => p.1 == nm) with
    | none =>
        refine iff_of_true rfl ?_
        rintro ⟨p, hp, hpe⟩
        have hnp := List.find?_eq_none.mp hfind p hp
        simp [hpe] at hnp
    | some p =>
        refine iff_of_false (fun hc => Except.noConfusion hc) ?_
        intro hnex
        exact hnex ⟨p, List.mem_of_find?_eq_some hfind,
          by simpa using List.find?_some hfind⟩
  · intro g hg
    unfold openDatabase
    rw [hg]

/-- C7 witness: registering an already-taken name fails with the
duplicate-name error, looking up a missing name fails with the
not-found error, and opening through the registered name invokes the
factory exactly once. -/
theorem registry_contract_witness :
    Registry.register (⟨[("mem", 7)]⟩ : Registry Nat) "mem" 9
        = Except.error RegErr.duplicateName ∧
      (Registry.lookup (⟨[("mem", 7)]⟩ : Registry Nat) "disk"
        = Except.error RegErr.notFound) ∧
      openDatabase (⟨[("mem", 7)]⟩ : Registry Nat) "mem" = Except.ok (7, [7]) := by
  refine ⟨?_, ?_, ?_⟩
  · exact (registry_contract (⟨[("mem", 7)]⟩ : Registry Nat) "mem" 9).1.mpr
      ⟨("mem", 7), by simp, rfl⟩
  · refine (registry_contract (⟨[("mem", 7)]⟩ : Registry Nat) "disk" 9).2.2.1.mpr ?_
    rintro ⟨p, hp, hpe⟩
    simp at hp
    rw [hp] at hpe
    exact absurd hpe (by decide)
  · exact (registry_contract (⟨[("mem", 7)]⟩ : Registry Nat) "mem" 7).2.2.2 7 rfl

end VFS

namespace DBC

/-- C9: every Database method guarded by REQUIRE_OPEN_DB —
total_changes, trace, busy_handler, last_insert_row_id,
define_function, define_aggregator, interrupt, errmsg, errcode,
changes, authorizer=, busy_timeout=, copy_to, encoding — raises
SQLite3::Exception with message "cannot use a closed database" when
called on a closed database (ctx->db is NULL), performing no other
effect. -/
theorem closed_db_guard {γ : Type} (eng : Engine γ) (s t : DbState γ)
    (hs : s.db = Option.none) (block authorizer aggregator : RValue)
    (nm : String) (arity ms : Int) :
    total_changes eng s
        = Except.error (RubyErr.sqlite3Exception "cannot use a closed database") ∧
      trace eng s block
        = Except.error (RubyErr.sqlite3Exception "cannot use a closed database") ∧
      busy_handler eng s block
        = Except.error (RubyErr.sqlite3Exception "cannot use a closed database") ∧
      last_insert_row_id eng s
        = Except.error (RubyErr.sqlite3Exception "cannot use a closed database") ∧
      define_function eng s nm arity
        = Except.error (RubyErr.sqlite3Exception "cannot use a closed database") ∧
      define_aggregator eng s nm aggregator arity
        = Except.error (RubyErr.sqlite3Exception "cannot use a closed database") ∧
      interrupt eng s
        = Except.error (RubyErr.sqlite3Exception "cannot use a closed database") ∧
      errmsg eng s
        = Except.error (RubyErr.sqlite3Exception "cannot use a closed database") ∧
      errcode eng s
        = Except.error (RubyErr.sqlite3Exception "cannot use a closed database") ∧
      changes eng s
        = Except.error (RubyErr.sqlite3Exception "cannot use a closed database") ∧
      set_authorizer eng s authorizer
        = Except.error (RubyErr.sqlite3Exception "cannot use a closed database") ∧
      set_busy_timeout eng s ms
        = Except.error (RubyErr.sqlite3Exception "cannot use a closed database") ∧
      copy_to eng s t
        = Except.error (RubyErr.sqlite3Exception "cannot use a closed database") ∧
      db_encoding eng s
        = Except.error (RubyErr.sqlite3Exception "cannot use a closed database") := by
  refine ⟨?_, ?_, ?_, ?_, ?_, ?_, ?_, ?_, ?_, ?_, ?_, ?_, ?_, ?_⟩ <;>
    simp [total_changes, trace, busy_handler, last_insert_row_id, define_function,
      define_aggregator, interrupt, errmsg, errcode, changes, set_authorizer,
      set_busy_timeout, copy_to, db_encoding, closedDbErr, hs]

/-- C9 witness: on a concrete closed database object, every guarded
method raises the closed-database exception. -/
theorem closed_db_guard_witness :
    total_changes unitEngine closedState
        = Except.error (RubyErr.sqlite3Exception "cannot use a closed database") ∧
      trace unitEngine closedState RValue.vnil
        = Except.error (RubyErr.sqlite3Exception "cannot use a closed database") ∧
      busy_handler unitEngine closedState RValue.vnil
        = Except.error (RubyErr.sqlite3Exception "cannot use a closed database") ∧
      last_insert_row_id unitEngine closedState
        = Except.error (RubyErr.sqlite3Exception "cannot use a closed database") ∧
      define_function unitEngine closedState "f" 1
        = Except.error (RubyErr.sqlite3Exception "cannot use a closed database") ∧
      define_aggregator unitEngine closedState "f" RValue.vnil 1
        = Except.error (RubyErr.sqlite3Exception "cannot use a closed database") ∧
      interrupt unitEngine closedState
        = Except.error (RubyErr.sqlite3Exception "cannot use a closed database") ∧
      errmsg unitEngine closedState
        = Except.error (RubyErr.sqlite3Exception "cannot use a closed database") ∧
      errcode unitEngine closedState
        = Except.error (RubyErr.sqlite3Exception "cannot use a closed database") ∧
      changes unitEngine closedState
        = Except.error (RubyErr.sqlite3Exception "cannot use a closed database") ∧
      set_authorizer unitEngine closedState RValue.vnil
        = Except.error (RubyErr.sqlite3Exception "cannot use a closed database") ∧
      set_busy_timeout unitEngine closedState 0
        = Except.error (RubyErr.sqlite3Exception "cannot use a closed database") ∧
      copy_to unitEngine closedState closedState
        = Except.error (RubyErr.sqlite3Exception "cannot use a closed database") ∧
      db_encoding unitEngine closedState
        = Except.error (RubyErr.sqlite3Exception "cannot use a closed database") :=
  closed_db_guard unitEngine closedState closedState rfl RValue.vnil RValue.vnil
    RValue.vnil "f" 1 0

/-- C10: the C-level busy callback returns 0 (abort the operation)
exactly when the stored handler's call returns Ruby false; every other
return value, including nil, yields 1 (retry). -/
theorem busy_callback_abort_iff (handlerCall : Int → RValue) (count : Int) :
    (rb_sqlite3_busy_handler handlerCall count = 0 ↔
        handlerCall count = RValue.vfalse) ∧
      (handlerCall count ≠ RValue.vfalse →
        rb_sqlite3_busy_handler handlerCall count = 1) ∧
      rb_sqlite3_busy_handler (fun _ => RValue.vnil) count = 1 := by
  unfold rb_sqlite3_busy_handler
  by_cases hf : handlerCall count = RValue.vfalse
  · simp [hf]
  · simp [hf]

/-- C10 witness: a handler returning false makes the callback return 0,
and a handler returning nil makes it return 1. -/
theorem busy_callback_abort_iff_witness :
    rb_sqlite3_busy_handler (fun _ => RValue.vfalse) 3 = 0 ∧
      rb_sqlite3_busy_handler (fun _ => RValue.vnil) 3 = 1 :=
  ⟨(busy_callback_abort_iff (fun _ => RValue.vfalse) 3).1.mpr rfl,
    (busy_callback_abort_iff (fun _ => RValue.vnil) 3).2.2⟩

end DBC
